import Mathlib

/-!
Shallow embedding of `src/timestamp.rs` from the `uuid` crate's timestamp
module: the `Timestamp` value type, its epoch-conversion arithmetic, and the
`ClockSequence` strategies (`NoContext` and the shared wrapping `Context`
counter).

Machine integers are modelled as `Nat` with explicit `% 2^w` reductions at
every operation where the Rust code performs unchecked (release-mode wrapping)
`u64`/`u32`/`u16` arithmetic.  Debug-mode overflow panics are modelled by
`Option`-valued "checked" variants where a claim is about them.
-/

namespace UuidTimestamp

/-- `2^64`, the modulus of Rust's `u64` arithmetic. -/
def U64_MOD : Nat := 18446744073709551616

/-- `2^32`, the modulus of Rust's `u32` arithmetic. -/
def U32_MOD : Nat := 4294967296

/-- `2^16`, the modulus of Rust's `u16` arithmetic. -/
def U16_MOD : Nat := 65536

/-- Rust's `u16::MAX`. -/
def U16_MAX : Nat := 65535

/-- `pub const UUID_TICKS_BETWEEN_EPOCHS: u64 = 0x01B2_1DD2_1381_4000;`
The number of 100ns ticks between the RFC4122 epoch (1582-10-15) and the
Unix epoch (1970-01-01). -/
def UUID_TICKS_BETWEEN_EPOCHS : Nat := 0x01B21DD213814000

/-- The `Timestamp` struct: `seconds: u64`, `nanos: u32`, and (with the
`v1`/`v6` features enabled) `counter: u16`. -/
structure Timestamp where
  seconds : Nat
  nanos : Nat
  counter : Nat
deriving DecidableEq, Repr

/-- Wrapping (release-mode) `u64` subtraction `a - b` for `a, b < 2^64`. -/
def sub64 (a b : Nat) : Nat := (a + U64_MOD - b) % U64_MOD

/-- `Timestamp::unix_to_rfc4122_ticks`:
`UUID_TICKS_BETWEEN_EPOCHS + seconds * 10_000_000 + nanos as u64 / 100`,
with each `u64` operation wrapping modulo `2^64`. -/
def Timestamp.unix_to_rfc4122_ticks (seconds nanos : Nat) : Nat :=
  ((UUID_TICKS_BETWEEN_EPOCHS + seconds * 10000000 % U64_MOD) % U64_MOD
    + nanos / 100) % U64_MOD

/-- `Timestamp::rfc4122_to_unix`:
`((ticks - CONST) / 10_000_000, ((ticks - CONST) % 10_000_000) as u32 * 100)`,
with the unguarded `u64` subtraction wrapping and the `u32` multiplication
reduced modulo `2^32`. -/
def Timestamp.rfc4122_to_unix (ticks : Nat) : Nat × Nat :=
  (sub64 ticks UUID_TICKS_BETWEEN_EPOCHS / 10000000,
   sub64 ticks UUID_TICKS_BETWEEN_EPOCHS % 10000000 % U32_MOD * 100 % U32_MOD)

/-- Checked (debug-mode) `u64` subtraction: `none` models the underflow panic. -/
def checkedSub (a b : Nat) : Option Nat :=
  if a < b then none else some (a - b)

/-- `Timestamp::rfc4122_to_unix` under debug-mode semantics: the unguarded
subtraction `ticks - UUID_TICKS_BETWEEN_EPOCHS` panics (here: `none`) on
underflow. -/
def Timestamp.rfc4122_to_unix_checked (ticks : Nat) : Option (Nat × Nat) :=
  match checkedSub ticks UUID_TICKS_BETWEEN_EPOCHS with
  | none => none
  | some d => some (d / 10000000, d % 10000000 % U32_MOD * 100 % U32_MOD)

/-- `Timestamp::from_rfc4122(ticks, counter)`: converts the ticks via
`rfc4122_to_unix` and stores the supplied counter verbatim. -/
def Timestamp.from_rfc4122 (ticks counter : Nat) : Timestamp :=
  ⟨(Timestamp.rfc4122_to_unix ticks).1, (Timestamp.rfc4122_to_unix ticks).2,
    counter⟩

/-- `Timestamp::from_rfc4122` under debug-mode semantics for the inner
subtraction. -/
def Timestamp.from_rfc4122_checked (ticks counter : Nat) : Option Timestamp :=
  match Timestamp.rfc4122_to_unix_checked ticks with
  | none => none
  | some p => some ⟨p.1, p.2, counter⟩

/-- `Timestamp::from_unix(context, seconds, nanos)`: stores `seconds`/`nanos`
directly and fills the counter from the clock-sequence strategy, here
represented by the function `gen` it invokes on `(seconds, nanos)`. -/
def Timestamp.from_unix (gen : Nat → Nat → Nat) (seconds nanos : Nat) :
    Timestamp :=
  ⟨seconds, nanos, gen seconds nanos⟩

/-- `Timestamp::to_unix`: identity projection `(seconds, nanos)`. -/
def Timestamp.to_unix (t : Timestamp) : Nat × Nat := (t.seconds, t.nanos)

/-- `Timestamp::to_rfc4122`: `(unix_to_rfc4122_ticks(seconds, nanos), counter)`. -/
def Timestamp.to_rfc4122 (t : Timestamp) : Nat × Nat :=
  (Timestamp.unix_to_rfc4122_ticks t.seconds t.nanos, t.counter)

/-- The deprecated `Timestamp::to_unix_nanos`: returns the stored `nanos`
field. -/
def Timestamp.to_unix_nanos (t : Timestamp) : Nat := t.nanos

/-- `SystemTime::UNIX_EPOCH.elapsed()`: the host clock reading is modelled as
`clockNanos : Int`, signed nanoseconds relative to the Unix epoch; `elapsed`
errs (`none`) exactly when the reading is before the epoch, and otherwise
yields the duration split into `(as_secs, subsec_nanos)`. -/
def elapsedSinceEpoch (clockNanos : Int) : Option (Nat × Nat) :=
  if clockNanos < 0 then none
  else some (clockNanos.toNat / 1000000000, clockNanos.toNat % 1000000000)

/-- `Timestamp::now(context)`: samples the clock once; the `.expect(..)` panic
on a pre-epoch reading is modelled by propagating `none`. -/
def Timestamp.now (gen : Nat → Nat → Nat) (clockNanos : Int) :
    Option Timestamp :=
  match elapsedSinceEpoch clockNanos with
  | none => none
  | some p => some ⟨p.1, p.2, gen p.1 p.2⟩

/-- `NoContext`, the no-op clock-sequence strategy. -/
structure NoContext
deriving DecidableEq, Repr

/-- `NoContext::generate_sequence`: unconditionally `0`. -/
def NoContext.generate_sequence (_c : NoContext)
    (_seconds _subsec_nanos : Nat) : Nat := 0

/-- `Context`, the shared wrapping counter strategy: one `u16` cell.  The
atomic cell is modelled by explicit state passing. -/
structure Context where
  count : Nat
deriving DecidableEq, Repr

/-- `Context::new(count: u16)`. -/
def Context.new (count : Nat) : Context := ⟨count % U16_MOD⟩

/-- `Context::generate_sequence`:
`self.count.fetch_add(1, AcqRel) % (u16::MAX >> 2)`.  `fetch_add` returns the
pre-increment value and wraps the `u16` cell modulo `2^16`; the pair holds the
emitted value and the updated counter state. -/
def Context.generate_sequence (c : Context) (_seconds _subsec_nanos : Nat) :
    Nat × Context :=
  (c.count % (U16_MAX >>> 2), ⟨(c.count + 1) % U16_MOD⟩)

/-- `n` sequential single-threaded calls to `Context::generate_sequence`,
collecting the emitted values in order. -/
def Context.runSequence (c : Context) : Nat → List Nat
  | 0 => []
  | n + 1 =>
    (c.generate_sequence 0 0).1 ::
      (c.generate_sequence 0 0).2.runSequence n

end UuidTimestamp

namespace UuidTimestamp

lemma u16max_shr2 : U16_MAX >>> 2 = 16383 := rfl

/-- **C4** Converting Unix parts `(seconds=0, nanos=0)` to legacy ticks yields
exactly `0x01B21DD213814000`, and converting ticks `0x01B21DD213814000` back
yields exactly `(seconds=0, nanos=0)`. -/
theorem c4_known_vector :
    Timestamp.unix_to_rfc4122_ticks 0 0 = 0x01B21DD213814000 ∧
    Timestamp.rfc4122_to_unix 0x01B21DD213814000 = (0, 0) := by
  constructor <;> decide

/-- **C5** Converting Unix parts `(seconds=1, nanos=250)` to legacy ticks
discards the sub-100ns remainder (truncation: `250/100 = 2` ticks, not a
rounded `3`), and converting the resulting ticks back yields
`(seconds=1, nanos=200)`, not `nanos=250`. -/
theorem c5_truncation_law :
    Timestamp.unix_to_rfc4122_ticks 1 250 = UUID_TICKS_BETWEEN_EPOCHS + 10000002 ∧
    Timestamp.rfc4122_to_unix (Timestamp.unix_to_rfc4122_ticks 1 250) = (1, 200) ∧
    Timestamp.rfc4122_to_unix (Timestamp.unix_to_rfc4122_ticks 1 250) ≠ (1, 250) := by
  refine ⟨by decide, by decide, by decide⟩

/-- **C6** The no-op strategy `NoContext`'s `generate_sequence` returns `0`
for every `(seconds, subsec_nanos)` input. -/
theorem c6_nocontext_zero :
    ∀ (c : NoContext) (seconds subsec_nanos : Nat),
      c.generate_sequence seconds subsec_nanos = 0 :=
  fun _ _ _ => rfl

/-- Witness for C6 at the concrete input `(12, 34)`. -/
theorem c6_nocontext_zero_witness :
    NoContext.generate_sequence ⟨⟩ 12 34 = 0 :=
  c6_nocontext_zero ⟨⟩ 12 34

/-- **C7** For every call to the shared wrapping counter strategy's
`generate_sequence`, regardless of the current counter state and of the
`(seconds, subsec_nanos)` arguments, the returned value is strictly less than
`16384` (fits in 14 bits). -/
theorem c7_context_range :
    ∀ (c : Context) (seconds subsec_nanos : Nat),
      (c.generate_sequence seconds subsec_nanos).1 < 16384 := by
  intro c seconds subsec_nanos
  simp only [Context.generate_sequence, u16max_shr2]
  omega

/-- Witness for C7 at the concrete state `Context.new 5` and input `(3, 4)`. -/
theorem c7_context_range_witness :
    ((Context.new 5).generate_sequence 3 4).1 < 16384 :=
  c7_context_range (Context.new 5) 3 4

/-- **C8** The deprecated accessor `to_unix_nanos` returns exactly the stored
fractional-seconds field, i.e. the second component of `to_unix`, for every
`Timestamp`. -/
theorem c8_to_unix_nanos :
    ∀ t : Timestamp, t.to_unix_nanos = t.to_unix.2 :=
  fun _ => rfl

/-- Witness for C8 at the concrete timestamp `⟨7, 42, 9⟩`. -/
theorem c8_to_unix_nanos_witness :
    (Timestamp.mk 7 42 9).to_unix_nanos = (Timestamp.mk 7 42 9).to_unix.2 :=
  c8_to_unix_nanos (Timestamp.mk 7 42 9)

/-- **C9** `Timestamp::now` aborts (modelled as `none`) if and only if the
clock reading is before the Unix epoch; whenever it returns a `Timestamp`,
the stored `(seconds, nanos)` decompose the non-negative clock reading
exactly, so no underflowed seconds value is ever returned. -/
theorem c9_now_total_iff :
    ∀ (gen : Nat → Nat → Nat) (clockNanos : Int),
      (Timestamp.now gen clockNanos = none ↔ clockNanos < 0) ∧
      (∀ ts, Timestamp.now gen clockNanos = some ts →
        0 ≤ clockNanos ∧
        (ts.seconds : Int) * 1000000000 + (ts.nanos : Int) = clockNanos) := by
  intro gen clockNanos
  by_cases h : clockNanos < 0
  · refine ⟨⟨fun _ => h, fun _ => ?_⟩, fun ts hts => ?_⟩
    · simp [Timestamp.now, elapsedSinceEpoch, h]
    · simp [Timestamp.now, elapsedSinceEpoch, h] at hts
  · refine ⟨⟨fun hn => ?_, fun hc => absurd hc h⟩, fun ts hts => ?_⟩
    · simp [Timestamp.now, elapsedSinceEpoch, h] at hn
    · simp only [Timestamp.now, elapsedSinceEpoch, if_neg h,
        Option.some.injEq] at hts
      subst hts
      refine ⟨le_of_not_lt h, ?_⟩
      have hnn : (clockNanos.toNat : Int) = clockNanos :=
        Int.toNat_of_nonneg (le_of_not_lt h)
      push_cast
      omega

/-- Witness for C9: at clock reading `1500000000` ns the constructor returns
the timestamp `(1 s, 500000000 ns)`, and at `-5` ns it aborts. -/
theorem c9_now_total_iff_witness :
    (0 ≤ (1500000000 : Int) ∧
      ((Timestamp.mk 1 500000000 0).seconds : Int) * 1000000000 +
        ((Timestamp.mk 1 500000000 0).nanos : Int) = 1500000000) ∧
    Timestamp.now (fun _ _ => 0) (-5) = none :=
  ⟨(c9_now_total_iff (fun _ _ => 0) 1500000000).2
      (Timestamp.mk 1 500000000 0) (by decide),
   (c9_now_total_iff (fun _ _ => 0) (-5)).1.mpr (by decide)⟩

/-- **C10** `from_rfc4122` and `rfc4122_to_unix` are only total for
`ticks ≥ 0x01B21DD213814000`: under debug semantics the unguarded subtraction
`ticks - UUID_TICKS_BETWEEN_EPOCHS` panics (`none`) exactly when `ticks` is
below the epoch-shift constant, and at or above it the checked and wrapping
(release) results agree, so only then is a meaningful `Timestamp` returned. -/
theorem c10_underflow_boundary :
    ∀ ticks : Nat, ticks < U64_MOD →
      (Timestamp.rfc4122_to_unix_checked ticks = none ↔
        ticks < UUID_TICKS_BETWEEN_EPOCHS) ∧
      (∀ counter, Timestamp.from_rfc4122_checked ticks counter = none ↔
        ticks < UUID_TICKS_BETWEEN_EPOCHS) ∧
      (UUID_TICKS_BETWEEN_EPOCHS ≤ ticks →
        Timestamp.rfc4122_to_unix_checked ticks =
          some (Timestamp.rfc4122_to_unix ticks)) := by
  intro ticks hlt
  by_cases h : ticks < UUID_TICKS_BETWEEN_EPOCHS
  · refine ⟨⟨fun _ => h, fun _ => ?_⟩,
      fun counter => ⟨fun _ => h, fun _ => ?_⟩,
      fun hge => absurd hge (not_le.mpr h)⟩ <;>
    simp [Timestamp.rfc4122_to_unix_checked, Timestamp.from_rfc4122_checked,
      checkedSub, h]
  · have hge := le_of_not_lt h
    refine ⟨⟨fun hn => ?_, fun hc => absurd hc h⟩,
      fun counter => ⟨fun hn => ?_, fun hc => absurd hc h⟩, fun _ => ?_⟩
    · simp [Timestamp.rfc4122_to_unix_checked, checkedSub, h] at hn
    · simp [Timestamp.from_rfc4122_checked, Timestamp.rfc4122_to_unix_checked,
        checkedSub, h] at hn
    · simp only [Timestamp.rfc4122_to_unix_checked, checkedSub, if_neg h,
        Timestamp.rfc4122_to_unix, sub64, Option.some.injEq]
      have h64 : (ticks - UUID_TICKS_BETWEEN_EPOCHS) =
          (ticks + U64_MOD - UUID_TICKS_BETWEEN_EPOCHS) % U64_MOD := by
        simp only [U64_MOD, UUID_TICKS_BETWEEN_EPOCHS] at *
        omega
      rw [← h64]

/-- Witness for C10 at `ticks = 0` (below the constant, so `none`) and at
`ticks = UUID_TICKS_BETWEEN_EPOCHS` (checked and wrapping results agree). -/
theorem c10_underflow_boundary_witness :
    Timestamp.rfc4122_to_unix_checked 0 = none ∧
    Timestamp.rfc4122_to_unix_checked 0x01B21DD213814000 =
      some (Timestamp.rfc4122_to_unix 0x01B21DD213814000) :=
  ⟨(c10_underflow_boundary 0 (by decide)).1.mpr (by decide),
   (c10_underflow_boundary 0x01B21DD213814000 (by decide)).2.2 (by decide)⟩

lemma runSequence_formula (N : Nat) : ∀ S : Nat,
    Context.runSequence ⟨S % U16_MOD⟩ N =
      (List.range N).map (fun k => (S + k) % U16_MOD % 16383) := by
  induction N with
  | zero => intro S; rfl
  | succ n ih =>
    intro S
    have hstate : ((S % U16_MOD + 1) % U16_MOD) = (S + 1) % U16_MOD := by
      simp only [U16_MOD]; omega
    rw [List.range_succ_eq_map]
    simp only [Context.runSequence, Context.generate_sequence, u16max_shr2,
      List.map_cons, List.map_map, Nat.add_zero, hstate, ih (S + 1)]
    congr 1
    refine List.map_congr_left ?_
    intro k _
    simp only [Function.comp_apply, U16_MOD]
    omega

/-- **C1 (counterexample)** With seed `S = 0` and a single sequential call,
the shared strategy emits `[0]`, not `[(0+1) mod 16383] = [1]`: `fetch_add`
returns the pre-increment counter value. -/
theorem c1_counterexample :
    Context.runSequence (Context.new 0) 1 ≠ [(0 + 1) % 16383] := by
  decide

/-- **C1 (amended)** Calling `generate_sequence` `N` times sequentially from
seed `S` yields the outputs `((S+0) mod 2^16) mod 16383`,
`((S+1) mod 2^16) mod 16383`, …, `((S+N-1) mod 2^16) mod 16383` in that exact
order: the `k`-th output is the pre-increment counter value, the 16-bit cell
wraps modulo `2^16`, and each emitted value is reduced modulo `16383`. -/
theorem c1_shared_counter_sequence :
    ∀ S N : Nat,
      Context.runSequence (Context.new S) N =
        (List.range N).map (fun k => (S + k) % U16_MOD % 16383) := by
  intro S N
  exact runSequence_formula N S

/-- **C2 (counterexample)** `from_unix` stores its `nanos` argument verbatim:
at input `(seconds=0, nanos=1_000_000_000)` the returned `Timestamp` violates
the invariant `nanos < 1_000_000_000`. -/
theorem c2_counterexample :
    ¬ (Timestamp.from_unix ((⟨⟩ : NoContext).generate_sequence)
        0 1000000000).nanos < 1000000000 := by
  decide

/-- **C2 (amended)** The invariant `nanos < 1_000_000_000` holds for every
`Timestamp` produced by `from_rfc4122` and by `now`; `from_unix` stores its
`nanos` input verbatim (no validation), so its output satisfies the invariant
exactly when the input does. -/
theorem c2_nanos_invariant :
    (∀ ticks counter,
      (Timestamp.from_rfc4122 ticks counter).nanos < 1000000000) ∧
    (∀ (gen : Nat → Nat → Nat) (clockNanos : Int) ts,
      Timestamp.now gen clockNanos = some ts → ts.nanos < 1000000000) ∧
    (∀ (gen : Nat → Nat → Nat) (seconds nanos : Nat),
      (Timestamp.from_unix gen seconds nanos).nanos = nanos) := by
  refine ⟨fun ticks counter => ?_, fun gen clockNanos ts hts => ?_,
    fun gen seconds nanos => rfl⟩
  · have key : ∀ x : Nat,
        x % 10000000 % 4294967296 * 100 % 4294967296 < 1000000000 := by
      intro x
      have k1 : x % 10000000 % 4294967296 = x % 10000000 :=
        Nat.mod_eq_of_lt (by omega)
      have k2 : x % 10000000 * 100 % 4294967296 = x % 10000000 * 100 :=
        Nat.mod_eq_of_lt (by omega)
      rw [k1, k2]
      omega
    simp only [Timestamp.from_rfc4122, Timestamp.rfc4122_to_unix, sub64,
      U64_MOD, U32_MOD, UUID_TICKS_BETWEEN_EPOCHS]
    exact key _
  · by_cases h : clockNanos < 0
    · simp [Timestamp.now, elapsedSinceEpoch, h] at hts
    · simp only [Timestamp.now, elapsedSinceEpoch, if_neg h,
        Option.some.injEq] at hts
      subst hts
      show clockNanos.toNat % 1000000000 < 1000000000
      omega

/-- Witness for C2 (amended): `from_rfc4122` at `(ticks=0, counter=0)` and
`now` at clock reading `1500000000` ns both satisfy the invariant, and
`from_unix` passes `nanos = 42` through verbatim. -/
theorem c2_nanos_invariant_witness :
    (Timestamp.from_rfc4122 0 0).nanos < 1000000000 ∧
    (Timestamp.mk 1 500000000 0).nanos < 1000000000 ∧
    (Timestamp.from_unix ((⟨⟩ : NoContext).generate_sequence) 7 42).nanos
      = 42 :=
  ⟨c2_nanos_invariant.1 0 0,
   c2_nanos_invariant.2.1 ((⟨⟩ : NoContext).generate_sequence) 1500000000
     (Timestamp.mk 1 500000000 0) (by decide),
   c2_nanos_invariant.2.2 ((⟨⟩ : NoContext).generate_sequence) 7 42⟩

/-- **C3 (counterexample)** At `(seconds = 2^61, nanos = 0)` — an input
satisfying the claim's stated preconditions — the `u64` multiplication
`seconds * 10_000_000` wraps modulo `2^64` (here to `0`, since
`2^61 * 10^7 = 5^7 * 2^68`), so the Unix→ticks→Unix round-trip returns
`(0, 0)` instead of the original pair. -/
theorem c3_counterexample :
    Timestamp.rfc4122_to_unix
        (Timestamp.unix_to_rfc4122_ticks 2305843009213693952 0)
      ≠ (2305843009213693952, 0) := by
  decide

/-- **C3 (amended)** For all `(seconds, nanos)` with `nanos < 1_000_000_000`,
`nanos` a multiple of `100`, and no `u64` overflow in the forward conversion
(`UUID_TICKS_BETWEEN_EPOCHS + seconds*10^7 + nanos/100 < 2^64`), converting
Unix→legacy-ticks→Unix reproduces `(seconds, nanos)` exactly. -/
theorem c3_roundtrip :
    ∀ seconds nanos : Nat, nanos < 1000000000 → nanos % 100 = 0 →
      UUID_TICKS_BETWEEN_EPOCHS + seconds * 10000000 + nanos / 100 < U64_MOD →
      Timestamp.rfc4122_to_unix (Timestamp.unix_to_rfc4122_ticks seconds nanos)
        = (seconds, nanos) := by
  intro seconds nanos h1 h2 h3
  simp only [U64_MOD, UUID_TICKS_BETWEEN_EPOCHS] at h3
  simp only [Timestamp.rfc4122_to_unix, Timestamp.unix_to_rfc4122_ticks,
    sub64, U64_MOD, U32_MOD, UUID_TICKS_BETWEEN_EPOCHS, Prod.mk.injEq]
  have e1 : seconds * 10000000 % 18446744073709551616 = seconds * 10000000 :=
    Nat.mod_eq_of_lt (by omega)
  rw [e1]
  have e2 : (122192928000000000 + seconds * 10000000) % 18446744073709551616
      = 122192928000000000 + seconds * 10000000 :=
    Nat.mod_eq_of_lt (by omega)
  rw [e2]
  have e3 : (122192928000000000 + seconds * 10000000 + nanos / 100) %
        18446744073709551616
      = 122192928000000000 + seconds * 10000000 + nanos / 100 :=
    Nat.mod_eq_of_lt (by omega)
  rw [e3]
  have e4 : (122192928000000000 + seconds * 10000000 + nanos / 100 +
        18446744073709551616 - 122192928000000000) % 18446744073709551616
      = seconds * 10000000 + nanos / 100 := by
    omega
  rw [e4]
  have e5 : (seconds * 10000000 + nanos / 100) % 10000000 = nanos / 100 := by
    omega
  rw [e5]
  have e6 : nanos / 100 % 4294967296 = nanos / 100 :=
    Nat.mod_eq_of_lt (by omega)
  rw [e6]
  have e7 : nanos / 100 * 100 % 4294967296 = nanos / 100 * 100 :=
    Nat.mod_eq_of_lt (by omega)
  rw [e7]
  constructor <;> omega

/-- Witness for C3 (amended) at the concrete pair `(seconds=1, nanos=100)`. -/
theorem c3_roundtrip_witness :
    Timestamp.rfc4122_to_unix (Timestamp.unix_to_rfc4122_ticks 1 100)
      = (1, 100) :=
  c3_roundtrip 1 100 (by decide) (by decide) (by decide)

end UuidTimestamp
